import Mathlib

/-!
Verification of the preset-selector and procedural-sprite subsystem of the
game-starter template (src/templates/game-starter/src/client/game/config.ts,
the SpriteFactory, and the BaseCharacter component).

Modelling conventions:
* JavaScript strings are modelled by Lean `String`; `toLowerCase` by
  per-character lowercasing (`jsToLower`, identical on the ASCII data
  involved here) and `String.prototype.includes` by an explicit substring
  scan over the character list.
* JavaScript numbers are modelled by `ℚ` where the code can only produce
  finite values (every literal and operation there is exact in binary
  floating point), and by `JsNum` — `ℚ` extended with `NaN` and `±Infinity`
  with IEEE propagation — where a caller-supplied `number` flows into
  arithmetic (the character's damage/heal amounts and its health).
* An object-literal table indexed by a string is a `List (String × _)`
  association list.  Property access (`jsGet`) follows JavaScript
  semantics on a plain object: an own key yields its value, a key naming
  one of the twelve `Object.prototype` properties yields that truthy
  inherited member (`JsValue.inherited`), anything else is `undefined`.
  `a || b` takes `b` exactly when `a` is `undefined`.  Reading a named
  property off an inherited member (a function, or `Object.prototype`
  itself for `__proto__`) yields `undefined` without throwing.
* A method translation returns `Except String _`; `.error` marks exactly
  the expressions where the JavaScript body dereferences `undefined`
  (a runtime TypeError).  Purely constructive bodies are everywhere `.ok`.
* Animation/timer registration (`tweens.add`, `time.delayedCall`) is
  delegated to the host engine and outside this subsystem's state; it is
  not part of the returned value being specified.
-/

/-- `leadsWith needle hay` is true when `needle` is an initial segment of
`hay` (helper for the substring scan). -/
def leadsWith : List Char → List Char → Bool
  | [], _ => true
  | _ :: _, [] => false
  | a :: as, b :: bs => a == b && leadsWith as bs

/-- `listIncludes hay needle`: `needle` occurs as a contiguous run inside
`hay`.  The empty needle occurs in every list, matching JavaScript
`String.prototype.includes`. -/
def listIncludes : List Char → List Char → Bool
  | _, [] => true
  | [], _ :: _ => false
  | h :: t, c :: cs => leadsWith (c :: cs) (h :: t) || listIncludes t (c :: cs)

/-- JavaScript `hay.includes(needle)` on strings. -/
def strIncludes (hay needle : String) : Bool :=
  listIncludes hay.toList needle.toList

/-- JavaScript `s.toLowerCase()`: per-character lowercasing (identical to
the runtime behaviour on the ASCII strings this subsystem handles). -/
def jsToLower (s : String) : String :=
  ⟨s.data.map Char.toLower⟩

/-- The result of a JavaScript property read on a plain object literal:
an own property's value, a truthy member inherited from
`Object.prototype` (a function, or the prototype object itself for
`__proto__`), or `undefined`. -/
inductive JsValue (α : Type) where
  | val (a : α)
  | inherited (name : String)
  | undefined
deriving DecidableEq, Repr

/-- The twelve property names every plain object inherits from
`Object.prototype`; reading any of them yields a truthy value. -/
def objectProtoProps : List String :=
  ["constructor", "hasOwnProperty", "isPrototypeOf", "propertyIsEnumerable",
   "toLocaleString", "toString", "valueOf", "__proto__",
   "__defineGetter__", "__defineSetter__", "__lookupGetter__",
   "__lookupSetter__"]

/-- JavaScript property access `obj[key]` on an object literal: own key,
else the prototype chain, else `undefined`. -/
def jsGet {α : Type} (tbl : List (String × α)) (key : String) : JsValue α :=
  match tbl.lookup key with
  | some v => .val v
  | none => if key ∈ objectProtoProps then .inherited key else .undefined

/-- The keyword table declared inside `detectGameType`
(config.ts lines 207-214), in declaration order. -/
def patterns : List (String × List String) :=
  [ ("platformer", ["platform", "jump", "mario", "sonic", "metroidvania"]),
    ("shooter",    ["shoot", "gun", "bullet", "space", "shmup", "nave"]),
    ("puzzle",     ["puzzle", "match", "tetris", "candy", "quebra"]),
    ("rpg",        ["rpg", "adventure", "quest", "inventory", "dungeon"]),
    ("racing",     ["race", "racing", "car", "speed", "corrida"]),
    ("zen",        ["zen", "calm", "relax", "meditation", "peaceful"]) ]

/-- The `for (const [type, keywords] of Object.entries(patterns))` loop of
`detectGameType`: return the first genre one of whose keywords occurs in
`desc`, else fall through to the default `'platformer'`. -/
def findType : List (String × List String) → String → String
  | [], _ => "platformer"
  | (t, keywords) :: rest, desc =>
      if keywords.any (fun keyword => strIncludes desc keyword) then t
      else findType rest desc

/-- `detectGameType` (config.ts lines 204-224): lowercase the description,
scan the keyword table in declaration order. -/
def detectGameType (description : String) : String :=
  findType patterns (jsToLower description)

/-- Modelled from the spec claim's words, for the refinement theorem C1:
scan the (genre, keyword-set) pairs in declaration order and return the
first genre one of whose keywords occurs case-insensitively as a substring
of the input; default genre `'platformer'` when none occurs. -/
def detectGameTypeSpec (description : String) : String :=
  match patterns.find?
      (fun p => p.2.any (fun k => strIncludes (jsToLower description) (jsToLower k))) with
  | some p => p.1
  | none => "platformer"

section Presets

/-- A 2-D vector (the `gravity` record). -/
structure Vec2 where
  x : ℚ
  y : ℚ
deriving DecidableEq, Repr

/-- `GamePreset.physics` (config.ts lines 53-56). `debug` is optional. -/
structure PhysicsPreset where
  gravity : Vec2
  debug : Option Bool
deriving DecidableEq, Repr

/-- `GamePreset.player` (config.ts lines 57-62). -/
structure PlayerPreset where
  speed : ℚ
  jumpHeight : Option ℚ
  fireRate : Option ℚ
  health : Option ℚ
deriving DecidableEq, Repr

/-- `GamePreset.camera` (config.ts lines 63-68). -/
structure CameraPreset where
  lerp : Option ℚ
  deadzone : Option ℚ
  smooth : Option Bool
  zoom : Option ℚ
deriving DecidableEq, Repr

/-- `particles: boolean | 'subtle'`. -/
inductive ParticlesFlag where
  | flag (b : Bool)
  | subtle
deriving DecidableEq, Repr

/-- `tweenStyle: 'aggressive' | 'smooth' | 'gentle'`. -/
inductive TweenStyle where
  | aggressive
  | smooth
  | gentle
deriving DecidableEq, Repr

/-- `soundLevel: 'many' | 'moderate' | 'minimal'`. -/
inductive SoundLevel where
  | many
  | moderate
  | minimal
deriving DecidableEq, Repr

/-- `GamePreset.polish` (config.ts lines 69-74). -/
structure PolishPreset where
  screenShake : Bool
  particles : ParticlesFlag
  tweenStyle : TweenStyle
  soundLevel : SoundLevel
deriving DecidableEq, Repr

/-- `GamePreset` (config.ts lines 52-75): the four attribute groups are
required (non-null) fields. -/
structure GamePreset where
  physics : PhysicsPreset
  player : PlayerPreset
  camera : CameraPreset
  polish : PolishPreset
deriving DecidableEq, Repr

/-- `GamePresets.platformer` (config.ts lines 78-98). -/
def platformerPreset : GamePreset where
  physics := { gravity := { x := 0, y := 980 }, debug := none }
  player := { speed := 200, jumpHeight := some 400, fireRate := none, health := some 3 }
  camera := { lerp := some 0.1, deadzone := some 50, smooth := some true, zoom := none }
  polish := { screenShake := true, particles := .flag true,
              tweenStyle := .aggressive, soundLevel := .many }

/-- `GamePresets.shooter` (config.ts lines 100-119). -/
def shooterPreset : GamePreset where
  physics := { gravity := { x := 0, y := 0 }, debug := none }
  player := { speed := 300, jumpHeight := none, fireRate := some 100, health := some 100 }
  camera := { lerp := none, deadzone := none, smooth := some true, zoom := some 1 }
  polish := { screenShake := true, particles := .flag true,
              tweenStyle := .aggressive, soundLevel := .many }

/-- `GamePresets.puzzle` (config.ts lines 121-138). -/
def puzzlePreset : GamePreset where
  physics := { gravity := { x := 0, y := 0 }, debug := none }
  player := { speed := 0, jumpHeight := none, fireRate := none, health := none }
  camera := { lerp := none, deadzone := none, smooth := some false, zoom := some 1 }
  polish := { screenShake := false, particles := .subtle,
              tweenStyle := .smooth, soundLevel := .moderate }

/-- `GamePresets.rpg` (config.ts lines 140-159). -/
def rpgPreset : GamePreset where
  physics := { gravity := { x := 0, y := 0 }, debug := none }
  player := { speed := 150, jumpHeight := none, fireRate := none, health := some 100 }
  camera := { lerp := some 0.08, deadzone := none, smooth := some true, zoom := some 2 }
  polish := { screenShake := false, particles := .subtle,
              tweenStyle := .smooth, soundLevel := .moderate }

/-- `GamePresets.racing` (config.ts lines 161-178). -/
def racingPreset : GamePreset where
  physics := { gravity := { x := 0, y := 0 }, debug := none }
  player := { speed := 400, jumpHeight := none, fireRate := none, health := none }
  camera := { lerp := some 0.15, deadzone := none, smooth := some true, zoom := none }
  polish := { screenShake := true, particles := .flag true,
              tweenStyle := .aggressive, soundLevel := .many }

/-- `GamePresets.zen` (config.ts lines 180-198). -/
def zenPreset : GamePreset where
  physics := { gravity := { x := 0, y := 100 }, debug := none }
  player := { speed := 100, jumpHeight := none, fireRate := none, health := none }
  camera := { lerp := some 0.05, deadzone := none, smooth := some true, zoom := some 1 }
  polish := { screenShake := false, particles := .flag false,
              tweenStyle := .gentle, soundLevel := .minimal }

/-- The `GamePresets` object literal (config.ts lines 77-199) as an
association list in declaration order. -/
def GamePresets : List (String × GamePreset) :=
  [ ("platformer", platformerPreset),
    ("shooter", shooterPreset),
    ("puzzle", puzzlePreset),
    ("rpg", rpgPreset),
    ("racing", racingPreset),
    ("zen", zenPreset) ]

/-- The six declared genre names, in declaration order. -/
def genreNames : List String :=
  ["platformer", "shooter", "puzzle", "rpg", "racing", "zen"]

/-- `getGamePreset` restricted to arguments that do not name an
`Object.prototype` property: there each read is an own key or `undefined`,
and `GamePresets[gameType] || GamePresets.platformer` is the fallback on a
missing key (`getGamePresetJs_agrees` proves this restriction faithful to
the full translation below). -/
def getGamePreset (gameType : String) : GamePreset :=
  (GamePresets.lookup gameType).getD platformerPreset

/-- `getGamePreset` (config.ts lines 229-231) at runtime-value level:
`GamePresets[gameType] || GamePresets.platformer`.  The first read follows
the prototype chain, so at an inherited name (for example
`"constructor"`) it yields a truthy non-preset member and the `||`
fallback is not taken. -/
def getGamePresetJs (gameType : String) : JsValue GamePreset :=
  match jsGet GamePresets gameType with
  | .undefined => jsGet GamePresets "platformer"
  | v => v

end Presets

/-- The module-level environment holding the one static mutable-in-principle
object of config.ts, the `GamePresets` table (the keyword table of
`detectGameType` is a per-call local constant, not module state). -/
abbrev PresetEnv := List (String × GamePreset)

/-- `detectGameType` as a computation over the module environment: its body
performs no read of and no assignment to module state (its keyword table is
a local literal), so the translation neither `get`s nor `set`s. -/
def detectGameTypeM (description : String) : StateM PresetEnv String :=
  pure (findType patterns (jsToLower description))

/-- `getGamePreset` as a computation over the module environment: it reads
the `GamePresets` object twice (`GamePresets[gameType]`,
`GamePresets.platformer`) and performs no write; `||` on the two
object-or-undefined reads is `Option.orElse`. -/
def getGamePresetM (gameType : String) : StateM PresetEnv (Option GamePreset) := do
  let tbl ← get
  pure ((tbl.lookup gameType).orElse (fun _ => tbl.lookup "platformer"))

section SpriteFactoryModel

/-- Drawing commands issued on a `Phaser.GameObjects.Graphics` object
(the heart collectible builds one). -/
inductive GraphicsCmd where
  | fillStyle (color : Nat)
  | fillEllipse (x y w h : ℚ)
  | fillTriangle (x1 y1 x2 y2 x3 y3 : ℚ)
deriving DecidableEq, Repr

/-- A primitive drawable allocated from the host engine
(`scene.add.rectangle/circle/triangle/polygon/star/graphics`), carrying the
arguments the factory passes. -/
inductive GameObj where
  | rectangle (x y width height : ℚ) (color : Option Nat) (alpha : Option ℚ)
  | circle (x y radius : ℚ) (color : Nat)
  | triangle (x y x1 y1 x2 y2 x3 y3 : ℚ) (color : Nat)
  | polygon (x y : ℚ) (points : String) (color : Nat)
  | star (x y : ℚ) (points : Nat) (innerRadius outerRadius : ℚ) (color : Nat)
  | graphicsObj (cmds : List GraphicsCmd)
deriving DecidableEq, Repr

/-- `Phaser.GameObjects.Container`: created at `(x, y)`; `container.add`
appends children. -/
structure Container where
  x : ℚ
  y : ℚ
  children : List GameObj
deriving DecidableEq, Repr

/-- `Phaser.GameObjects.Text` as created by `createEmoji`:
`scene.add.text(x, y, emoji, style).setOrigin(0.5)` (setting the origin
does not change the object's `x`/`y`). -/
structure TextObj where
  x : ℚ
  y : ℚ
  content : String
  fontSize : ℚ
  fontFamily : String
  originX : ℚ
  originY : ℚ
deriving DecidableEq, Repr

/-- One palette row of the `colors` object in `createPlatform`. -/
structure Palette where
  main : Nat
  shadow : Nat
  highlight : Nat
deriving DecidableEq, Repr

/-- The `colors` object literal of `createPlatform` (sprite factory lines
68-73) as an association list. -/
def platformColorsTable : List (String × Palette) :=
  [ ("grass", ⟨0x4a7c2e, 0x2d4a1c, 0x6ba644⟩),
    ("stone", ⟨0x808080, 0x505050, 0xa0a0a0⟩),
    ("ice",   ⟨0x87ceeb, 0x4682b4, 0xadd8e6⟩),
    ("metal", ⟨0x708090, 0x2f4f4f, 0x778899⟩) ]

/-- `colors[style]`: an own key, an inherited `Object.prototype` member at
one of its twelve names, `undefined` otherwise. -/
def platformColors (style : String) : JsValue Palette :=
  jsGet platformColorsTable style

/-- The particle-emitter configuration records built in
`createParticleEffect` (sprite factory lines 193-238); optional fields are
the ones only some of the four records carry. -/
structure ParticleConfig where
  x : ℚ
  y : ℚ
  speedMin : ℚ
  speedMax : ℚ
  scaleStart : ℚ
  scaleEnd : ℚ
  blendMode : Option String
  lifespan : ℚ
  quantity : ℚ
  frequency : Option ℚ
  tint : List Nat
  rotateMin : Option ℚ
  rotateMax : Option ℚ
  alphaStart : Option ℚ
  alphaEnd : Option ℚ
  angleMin : Option ℚ
  angleMax : Option ℚ
  gravityY : Option ℚ
deriving DecidableEq, Repr

/-- The `configs` object literal of `createParticleEffect` as an
association list. -/
def particleConfigTable (x y : ℚ) : List (String × ParticleConfig) :=
  [ ("explosion",
     { x := x, y := y, speedMin := 100, speedMax := 300,
           scaleStart := 1, scaleEnd := 0, blendMode := some "ADD",
           lifespan := 300, quantity := 20, frequency := none,
           tint := [0xff0000, 0xff8800, 0xffff00],
           rotateMin := none, rotateMax := none,
           alphaStart := none, alphaEnd := none,
           angleMin := none, angleMax := none, gravityY := none }),
    ("magic",
     { x := x, y := y, speedMin := 50, speedMax := 150,
       scaleStart := 0.5, scaleEnd := 0, blendMode := some "ADD",
       lifespan := 1000, quantity := 5, frequency := some 100,
       tint := [0x00ffff, 0xff00ff, 0xffff00],
       rotateMin := some 0, rotateMax := some 360,
       alphaStart := none, alphaEnd := none,
       angleMin := none, angleMax := none, gravityY := none }),
    ("dust",
     { x := x, y := y, speedMin := 20, speedMax := 40,
       scaleStart := 0.3, scaleEnd := 0, blendMode := none,
       lifespan := 500, quantity := 3, frequency := some 50,
       tint := [0x808080],
       rotateMin := none, rotateMax := none,
       alphaStart := some 0.5, alphaEnd := some 0,
       angleMin := none, angleMax := none, gravityY := none }),
    ("splash",
     { x := x, y := y, speedMin := 100, speedMax := 200,
       scaleStart := 0.4, scaleEnd := 0, blendMode := none,
       lifespan := 400, quantity := 10, frequency := none,
       tint := [0x0088ff],
       rotateMin := none, rotateMax := none,
       alphaStart := none, alphaEnd := none,
       angleMin := some 250, angleMax := some 290, gravityY := some 300 }) ]

/-- `configs[type]`: an own key, an inherited `Object.prototype` member at
one of its twelve names, `undefined` otherwise. -/
def particleConfigs (x y : ℚ) (t : String) : JsValue ParticleConfig :=
  jsGet (particleConfigTable x y) t

/-- The emitter returned by `scene.add.particles(x, y, 'particle', config)`.
The host engine accepts an absent (`undefined`) config — and likewise a
truthy non-config object, off which every config property it reads is
`undefined` — falling back to its own defaults, so construction itself
never fails.  `autoDestroyScheduled` records whether the factory scheduled
the 1000 ms delayed `destroy` (explosion and splash only). -/
structure ParticleEmitter where
  x : ℚ
  y : ℚ
  texture : String
  cfg : JsValue ParticleConfig
  autoDestroyScheduled : Bool
deriving DecidableEq, Repr

namespace SpriteFactory

/-- `createCharacter` (sprite factory lines 18-54); source defaults:
`type = 'hero'`, `color = 0x00ff00`.  The selector is an arbitrary string
(the claims quantify over unsupported ones); the `if / else if / else`
chain sends anything that is neither `'hero'` nor `'enemy'` to the NPC
branch. -/
def createCharacter (x y : ℚ) (type : String) (color : Nat) :
    Except String Container :=
  if type = "hero" then
    .ok ⟨x, y, [.rectangle 0 0 24 32 (some color) none,
                .circle 0 (-20) 12 (color + 0x333333),
                .circle (-4) (-22) 3 0xffffff,
                .circle 4 (-22) 3 0xffffff]⟩
  else if type = "enemy" then
    .ok ⟨x, y, [.triangle 0 0 (-15) 15 15 15 0 (-15) 0xff0000,
                .rectangle (-5) (-5) 4 2 (some 0xffffff) none,
                .rectangle 5 (-5) 4 2 (some 0xffffff) none]⟩
  else
    .ok ⟨x, y, [.circle 0 0 16 0xffcc00,
                .circle (-5) (-3) 2 0x000000,
                .circle 5 (-3) 2 0x000000]⟩

/-- `createPlatform` (sprite factory lines 59-87); source default:
`style = 'grass'`.  When `colors[style]` is `undefined` (a selector that is
neither a style key nor an `Object.prototype` name) the body evaluates
`palette.shadow`, a TypeError — translated as `.error`.  When it is a
truthy inherited member, `palette.shadow`/`.main`/`.highlight` are merely
`undefined` and the rectangles are created without a fill colour. -/
def createPlatform (x y width height : ℚ) (style : String) :
    Except String Container :=
  match platformColors style with
  | .undefined => .error "TypeError: Cannot read properties of undefined (reading 'shadow')"
  | .inherited _ =>
      .ok ⟨x, y, [.rectangle 2 2 width height none (some 0.5),
                  .rectangle 0 0 width height none none,
                  .rectangle 0 (-height / 4) (width - 4) 2 none none]⟩
  | .val palette =>
      .ok ⟨x, y, [.rectangle 2 2 width height (some palette.shadow) (some 0.5),
                  .rectangle 0 0 width height (some palette.main) none,
                  .rectangle 0 (-height / 4) (width - 4) 2 (some palette.highlight) none]⟩

/-- `createCollectible` (sprite factory lines 92-159); source default:
`type = 'coin'`.  The `switch` has no default case, so an unsupported
selector falls through and the container is returned with no children. -/
def createCollectible (x y : ℚ) (type : String) : Except String Container :=
  if type = "coin" then
    .ok ⟨x, y, [.circle 0 0 10 0xffd700, .circle 0 0 6 0xffed4e]⟩
  else if type = "gem" then
    .ok ⟨x, y, [.polygon 0 0 "0,-12 8,-4 8,4 0,12 -8,4 -8,-4" 0x00ffff,
                .polygon 0 (-4) "0,-4 3,-1 3,1 0,4 -3,1 -3,-1" 0xffffff]⟩
  else if type = "star" then
    .ok ⟨x, y, [.star 0 0 5 8 16 0xffff00]⟩
  else if type = "heart" then
    .ok ⟨x, y, [.graphicsObj [.fillStyle 0xff0080,
                              .fillEllipse (-4) (-4) 10 10,
                              .fillEllipse 4 (-4) 10 10,
                              .fillTriangle (-7) 0 7 0 0 10]]⟩
  else
    .ok ⟨x, y, []⟩

/-- `createEmoji` (sprite factory lines 164-176); source default
`size = 32`. -/
def createEmoji (x y : ℚ) (emoji : String) (size : ℚ) : Except String TextObj :=
  .ok ⟨x, y, emoji, size, "Arial, sans-serif", 0.5, 0.5⟩

/-- `createParticleEffect` (sprite factory lines 181-250); source default
`type = 'explosion'`.  `configs[type]` for an unsupported type is
`undefined` (or, at an `Object.prototype` name, the truthy inherited
member); either way it is passed on to the host engine, which tolerates
it, so the call always returns an emitter. -/
def createParticleEffect (x y : ℚ) (type : String) :
    Except String ParticleEmitter :=
  .ok { x := x, y := y, texture := "particle",
        cfg := particleConfigs x y type,
        autoDestroyScheduled := (type == "explosion" || type == "splash") }

end SpriteFactory

/-- The selector sets accepted by the factory operations' TypeScript
signatures. -/
def characterTypes : List String := ["hero", "enemy", "npc"]

/-- Supported platform styles. -/
def platformStyles : List String := ["grass", "stone", "ice", "metal"]

/-- Supported collectible types. -/
def collectibleTypes : List String := ["coin", "gem", "star", "heart"]

/-- Supported particle-effect types. -/
def particleTypes : List String := ["explosion", "magic", "dust", "splash"]

end SpriteFactoryModel

section BaseCharacterModel

/-- A JavaScript `number` where the full domain matters: a finite value
(`ℚ`, exact for everything this code computes), `NaN`, or `±Infinity`.
Used for the caller-supplied damage/heal amounts and for the health they
flow into. -/
inductive JsNum where
  | num (q : ℚ)
  | nan
  | inf
  | ninf
deriving DecidableEq, Repr

instance instOfNatJsNum (n : Nat) : OfNat JsNum n := ⟨JsNum.num (OfNat.ofNat n)⟩

/-- IEEE addition on the modelled domain (`Infinity + -Infinity = NaN`). -/
def JsNum.add : JsNum → JsNum → JsNum
  | num a, num b => num (a + b)
  | nan, _ => nan
  | _, nan => nan
  | inf, ninf => nan
  | ninf, inf => nan
  | inf, _ => inf
  | _, inf => inf
  | ninf, _ => ninf
  | _, ninf => ninf

/-- IEEE subtraction on the modelled domain (`±Infinity - ±Infinity = NaN`). -/
def JsNum.sub : JsNum → JsNum → JsNum
  | num a, num b => num (a - b)
  | nan, _ => nan
  | _, nan => nan
  | inf, inf => nan
  | ninf, ninf => nan
  | inf, _ => inf
  | _, inf => ninf
  | ninf, _ => ninf
  | _, ninf => inf

/-- `Math.min`: `NaN` if either argument is `NaN`. -/
def jsMin : JsNum → JsNum → JsNum
  | .nan, _ => .nan
  | _, .nan => .nan
  | .ninf, _ => .ninf
  | _, .ninf => .ninf
  | .inf, b => b
  | a, .inf => a
  | .num a, .num b => .num (min a b)

/-- JavaScript `a <= b`: false whenever either side is `NaN`. -/
def jsLe : JsNum → JsNum → Bool
  | .nan, _ => false
  | _, .nan => false
  | .ninf, _ => true
  | _, .ninf => false
  | _, .inf => true
  | .inf, _ => false
  | .num a, .num b => decide (a ≤ b)

/-- `CharacterConfig` (Game.tsx lines 44-53): the optional fields are
`Option` (`none` = property omitted / `undefined`); `scene` is a host
handle with no observable content here. -/
structure CharacterConfig where
  x : ℚ
  y : ℚ
  texture : Option String
  speed : Option ℚ
  jumpHeight : Option ℚ
  health : Option ℚ
  scale : Option ℚ
deriving DecidableEq, Repr

/-- JavaScript `a || b` where `a` is a number-or-undefined: `undefined`
and `0` are falsy, any other number is returned unchanged. -/
def jsOrNum (a : Option ℚ) (b : ℚ) : ℚ :=
  match a with
  | none => b
  | some v => if v = 0 then b else v

/-- `facing: 'left' | 'right'`. -/
inductive Facing where
  | left
  | right
deriving DecidableEq, Repr

/-- The observable fields of `BaseCharacter` (Game.tsx lines 55-86) that
its own methods read or write.  `alpha` and `scale` are the inherited
sprite properties touched via `setAlpha`/`setScale`; `destroyed` records
that `destroy()` ran (death). -/
structure BaseCharacter where
  x : ℚ
  y : ℚ
  texture : String
  speed : ℚ
  jumpHeight : ℚ
  health : JsNum
  maxHealth : ℚ
  isJumping : Bool
  facing : Facing
  invulnerable : Bool
  alpha : ℚ
  scale : ℚ
  destroyed : Bool
deriving DecidableEq, Repr

/-- The `BaseCharacter` constructor (Game.tsx lines 65-86):
`config.speed || 200`, `config.jumpHeight || 400`, `config.health || 3`,
`maxHealth = health`, `config.texture || ''`, and `setScale` only when
`config.scale` is truthy (a fresh sprite has scale 1). -/
def mkBaseCharacter (cfg : CharacterConfig) : BaseCharacter where
  x := cfg.x
  y := cfg.y
  texture := cfg.texture.getD ""
  speed := jsOrNum cfg.speed 200
  jumpHeight := jsOrNum cfg.jumpHeight 400
  health := .num (jsOrNum cfg.health 3)
  maxHealth := jsOrNum cfg.health 3
  isJumping := false
  facing := .right
  invulnerable := false
  alpha := 1
  scale := jsOrNum cfg.scale 1
  destroyed := false

/-- `die` (Game.tsx lines 231-257): the death tween fades alpha and scale
to 0 and its completion callback destroys the sprite. -/
def die (c : BaseCharacter) : BaseCharacter :=
  { c with alpha := 0, scale := 0, destroyed := true }

/-- `takeDamage` (Game.tsx lines 159-181); source default `amount = 1`,
parameter type `number` (so negative, `NaN` and infinite amounts are
accepted).  An invulnerable character returns immediately.  Otherwise
health drops by `amount`, the invulnerability frame starts
(`invulnerable = true`, `setAlpha(0.5)`; the flash/shake are host-engine
visuals), and when `this.health <= 0` the character dies (false for a
`NaN` health).  The 1000 ms delayed reset of the frame is the separate
`invulnEnd` event. -/
def takeDamage (c : BaseCharacter) (amount : JsNum) : BaseCharacter :=
  if c.invulnerable then c
  else
    let hit := { c with health := c.health.sub amount,
                        invulnerable := true, alpha := 0.5 }
    if jsLe hit.health (.num 0) then die hit else hit

/-- `heal` (Game.tsx lines 186-206); parameter type `number`.
`health = Math.min(health + amount, maxHealth)` — for a `NaN` amount this
sets health to `NaN`; the flash and particles are host-engine visuals. -/
def heal (c : BaseCharacter) (amount : JsNum) : BaseCharacter :=
  { c with health := jsMin (c.health.add amount) (.num c.maxHealth) }

/-- `powerUp` (Game.tsx lines 282-310), immediate effects: `setScale(1.2)`
and `speed *= 1.5`.  The delayed reset (restore captured speed, scale 1)
is a host-timer callback; it too leaves health and maxHealth untouched. -/
def powerUp (c : BaseCharacter) : BaseCharacter :=
  { c with scale := 1.2, speed := c.speed * 1.5 }

/-- The `delayedCall(1000, ...)` body scheduled by `takeDamage`:
`invulnerable = false; setAlpha(1)`. -/
def invulnEnd (c : BaseCharacter) : BaseCharacter :=
  { c with invulnerable := false, alpha := 1 }

/-- One observable call on a character: the three methods of claim C8 plus
the invulnerability-frame expiry that `takeDamage` schedules. -/
inductive CharEvent where
  | takeDamage (amount : JsNum)
  | heal (amount : JsNum)
  | powerUp
  | invulnEnd
deriving DecidableEq, Repr

/-- Apply one call. -/
def step (c : BaseCharacter) : CharEvent → BaseCharacter
  | .takeDamage a => takeDamage c a
  | .heal a => heal c a
  | .powerUp => powerUp c
  | .invulnEnd => invulnEnd c

/-- Apply a call sequence in order. -/
def runEvents (c : BaseCharacter) (es : List CharEvent) : BaseCharacter :=
  es.foldl step c

/-- A concrete construction config: every optional property omitted. -/
def sampleConfig : CharacterConfig where
  x := 0
  y := 0
  texture := none
  speed := none
  jumpHeight := none
  health := none
  scale := none

/-- A concrete character inside its invulnerability frame. -/
def invulnerableSample : BaseCharacter :=
  { mkBaseCharacter sampleConfig with invulnerable := true }

end BaseCharacterModel

section Lemmas

theorem find?_pred_congr {α : Type} (p q : α → Bool) :
    ∀ l : List α, (∀ a ∈ l, p a = q a) → l.find? p = l.find? q := by
  intro l
  induction l with
  | nil => intro _; rfl
  | cons a t ih =>
    intro h
    have ha := h a (List.mem_cons_self a t)
    simp only [List.find?]
    rw [ha]
    cases hq : q a with
    | true => rfl
    | false => exact ih (fun x hx => h x (List.mem_cons_of_mem a hx))

theorem any_pred_congr {α : Type} (p q : α → Bool) :
    ∀ l : List α, (∀ a ∈ l, p a = q a) → l.any p = l.any q := by
  intro l
  induction l with
  | nil => intro _; rfl
  | cons a t ih =>
    intro h
    simp only [List.any_cons]
    rw [h a (List.mem_cons_self a t), ih (fun x hx => h x (List.mem_cons_of_mem a hx))]

/-- The early-return loop of `detectGameType` computes the first-match
selection that `List.find?` describes. -/
theorem findType_eq_find? (l : List (String × List String)) (desc : String) :
    findType l desc =
      (match l.find? (fun p => p.2.any (fun k => strIncludes desc k)) with
       | some p => p.1
       | none => "platformer") := by
  induction l with
  | nil => rfl
  | cons hd tl ih =>
    obtain ⟨t, ks⟩ := hd
    by_cases h : (ks.any fun k => strIncludes desc k) = true
    · simp [findType, List.find?, h]
    · simp only [Bool.not_eq_true] at h
      simp [findType, List.find?, h, ih]

/-- Every keyword in the table is already lowercase. -/
theorem patterns_keywords_lower :
    ∀ p ∈ patterns, ∀ k ∈ p.2, jsToLower k = k := by decide

/-- A string off the four style names is not an own key of the `colors`
object. -/
theorem platformTable_lookup_none (s : String) (h : s ∉ platformStyles) :
    platformColorsTable.lookup s = none := by
  simp only [platformStyles, List.mem_cons, List.not_mem_nil, or_false,
    not_or] at h
  obtain ⟨h1, h2, h3, h4⟩ := h
  have b1 : (s == "grass") = false := beq_eq_false_iff_ne.mpr h1
  have b2 : (s == "stone") = false := beq_eq_false_iff_ne.mpr h2
  have b3 : (s == "ice") = false := beq_eq_false_iff_ne.mpr h3
  have b4 : (s == "metal") = false := beq_eq_false_iff_ne.mpr h4
  simp [platformColorsTable, List.lookup, b1, b2, b3, b4]

/-- A string off the six genre names is not an own key of `GamePresets`. -/
theorem GamePresets_lookup_none (s : String) (h : s ∉ genreNames) :
    GamePresets.lookup s = none := by
  simp only [genreNames, List.mem_cons, List.not_mem_nil, or_false,
    not_or] at h
  obtain ⟨h1, h2, h3, h4, h5, h6⟩ := h
  have b1 : (s == "platformer") = false := beq_eq_false_iff_ne.mpr h1
  have b2 : (s == "shooter") = false := beq_eq_false_iff_ne.mpr h2
  have b3 : (s == "puzzle") = false := beq_eq_false_iff_ne.mpr h3
  have b4 : (s == "rpg") = false := beq_eq_false_iff_ne.mpr h4
  have b5 : (s == "racing") = false := beq_eq_false_iff_ne.mpr h5
  have b6 : (s == "zen") = false := beq_eq_false_iff_ne.mpr h6
  simp [GamePresets, List.lookup, b1, b2, b3, b4, b5, b6]

/-- Off the twelve inherited `Object.prototype` names, the runtime-level
translation `getGamePresetJs` agrees with its own-key restriction
`getGamePreset` (used by the claims about the six declared genres). -/
theorem getGamePresetJs_agrees (s : String) (h : s ∉ objectProtoProps) :
    getGamePresetJs s = JsValue.val (getGamePreset s) := by
  unfold getGamePresetJs getGamePreset jsGet
  cases hl : GamePresets.lookup s with
  | some p => simp [hl]
  | none =>
    simp only [hl, if_neg h]
    rfl

end Lemmas

/-- C3 counterexample: `createPlatform` called with the unsupported style
`"wood"` (neither a style key nor an inherited `Object.prototype` name)
does not return normally — `colors["wood"]` is `undefined` and the body
then reads `.shadow` off it, a TypeError. -/
theorem createPlatform_unknown_style_errors :
    SpriteFactory.createPlatform 0 0 100 20 "wood" =
      .error "TypeError: Cannot read properties of undefined (reading 'shadow')" := by
  rfl

/-- C3 amended: `createCharacter`, `createCollectible` and
`createParticleEffect` return normally for every selector string, degrading
to a default (the NPC branch, an empty container, and a config the host
engine treats as absent or default); `createPlatform` returns normally
exactly when its selector is one of the four supported styles or one of the
twelve `Object.prototype` property names (there `colors[style]` is the
truthy inherited member and its colour properties read as `undefined`), and
raises a TypeError on any other selector. -/
theorem factory_selectors_degrade :
    (∀ (x y : ℚ) (t : String) (color : Nat),
        (SpriteFactory.createCharacter x y t color).isOk = true) ∧
    (∀ (x y : ℚ) (t : String),
        (SpriteFactory.createCollectible x y t).isOk = true) ∧
    (∀ (x y : ℚ) (t : String),
        (SpriteFactory.createParticleEffect x y t).isOk = true) ∧
    (∀ (x y w h : ℚ) (s : String),
        (SpriteFactory.createPlatform x y w h s).isOk = true ↔
          (s ∈ platformStyles ∨ s ∈ objectProtoProps)) := by
  refine ⟨?_, ?_, ?_, ?_⟩
  · intro x y t color
    unfold SpriteFactory.createCharacter
    split
    · rfl
    · split <;> rfl
  · intro x y t
    unfold SpriteFactory.createCollectible
    split
    · rfl
    · split
      · rfl
      · split
        · rfl
        · split <;> rfl
  · intro x y t
    rfl
  · intro x y w h s
    constructor
    · intro hok
      by_contra hcon
      push_neg at hcon
      have hu : platformColors s = JsValue.undefined := by
        unfold platformColors jsGet
        rw [platformTable_lookup_none s hcon.1]
        simp [hcon.2]
      unfold SpriteFactory.createPlatform at hok
      rw [hu] at hok
      simp [Except.isOk, Except.toBool] at hok
    · intro hmem
      rcases hmem with hs | hp
      · simp only [platformStyles] at hs
        fin_cases hs <;> rfl
      · simp only [objectProtoProps] at hp
        fin_cases hp <;> rfl

/-- C5: every visual-construction operation, given a position and a
supported sub-type, returns (normally) a non-null object whose exposed
position equals the input coordinates. -/
theorem factory_position_exposed (x y : ℚ) :
    (∀ (t : String) (color : Nat), t ∈ characterTypes →
        ∃ c : Container, SpriteFactory.createCharacter x y t color = .ok c ∧
          c.x = x ∧ c.y = y) ∧
    (∀ (w h : ℚ) (s : String), s ∈ platformStyles →
        ∃ c : Container, SpriteFactory.createPlatform x y w h s = .ok c ∧
          c.x = x ∧ c.y = y) ∧
    (∀ t : String, t ∈ collectibleTypes →
        ∃ c : Container, SpriteFactory.createCollectible x y t = .ok c ∧
          c.x = x ∧ c.y = y) ∧
    (∀ (emoji : String) (size : ℚ),
        ∃ txt : TextObj, SpriteFactory.createEmoji x y emoji size = .ok txt ∧
          txt.x = x ∧ txt.y = y) ∧
    (∀ t : String, t ∈ particleTypes →
        ∃ em : ParticleEmitter, SpriteFactory.createParticleEffect x y t = .ok em ∧
          em.x = x ∧ em.y = y) := by
  refine ⟨?_, ?_, ?_, ?_, ?_⟩
  · intro t color ht
    simp only [characterTypes] at ht
    fin_cases ht <;> exact ⟨_, rfl, rfl, rfl⟩
  · intro w h s hs
    simp only [platformStyles] at hs
    fin_cases hs <;> exact ⟨_, rfl, rfl, rfl⟩
  · intro t ht
    simp only [collectibleTypes] at ht
    fin_cases ht <;> exact ⟨_, rfl, rfl, rfl⟩
  · intro emoji size
    exact ⟨_, rfl, rfl, rfl⟩
  · intro t ht
    simp only [particleTypes] at ht
    fin_cases ht <;> exact ⟨_, rfl, rfl, rfl⟩

/-- Witness for C5 at concrete positions and selectors. -/
theorem factory_position_exposed_witness :
    ("npc" ∈ characterTypes ∧ "ice" ∈ platformStyles ∧
      "gem" ∈ collectibleTypes ∧ "dust" ∈ particleTypes) ∧
    (∃ c : Container, SpriteFactory.createCharacter 3 4 "npc" 0x123456 = .ok c ∧
        c.x = 3 ∧ c.y = 4) ∧
    (∃ c : Container, SpriteFactory.createPlatform 3 4 120 16 "ice" = .ok c ∧
        c.x = 3 ∧ c.y = 4) ∧
    (∃ c : Container, SpriteFactory.createCollectible 3 4 "gem" = .ok c ∧
        c.x = 3 ∧ c.y = 4) ∧
    (∃ txt : TextObj, SpriteFactory.createEmoji 3 4 "OK" 32 = .ok txt ∧
        txt.x = 3 ∧ txt.y = 4) ∧
    (∃ em : ParticleEmitter, SpriteFactory.createParticleEffect 3 4 "dust" = .ok em ∧
        em.x = 3 ∧ em.y = 4) :=
  ⟨⟨by decide, by decide, by decide, by decide⟩,
   (factory_position_exposed 3 4).1 "npc" 0x123456 (by decide),
   (factory_position_exposed 3 4).2.1 120 16 "ice" (by decide),
   (factory_position_exposed 3 4).2.2.1 "gem" (by decide),
   (factory_position_exposed 3 4).2.2.2.1 "OK" 32,
   (factory_position_exposed 3 4).2.2.2.2 "dust" (by decide)⟩

/-- C1: `detectGameType` scans the genres in declaration order and returns
the first genre one of whose keywords occurs case-insensitively as a
substring of the input (`detectGameTypeSpec`, written from the claim's
words); when no keyword occurs — in particular on the empty string — it
returns the default genre `"platformer"`; and the two quoted examples hold. -/
theorem detectGameType_first_match_default :
    (∀ s : String, detectGameType s = detectGameTypeSpec s) ∧
    detectGameType "I want a jumping platform game" = "platformer" ∧
    detectGameType "" = "platformer" := by
  refine ⟨?_, by decide, by decide⟩
  intro s
  unfold detectGameType detectGameTypeSpec
  rw [findType_eq_find?]
  have hp : patterns.find? (fun p => p.2.any fun k => strIncludes (jsToLower s) k) =
      patterns.find? (fun p => p.2.any fun k => strIncludes (jsToLower s) (jsToLower k)) := by
    apply find?_pred_congr
    intro p hp
    apply any_pred_congr
    intro k hk
    rw [patterns_keywords_lower p hp k hk]
  rw [hp]

/-- C2 counterexample: at the inherited property name `"constructor"` —
not one of the six genre names — `GamePresets["constructor"]` is the
truthy inherited `Object` constructor, the `||` fallback is not taken, and
the call returns that member, not the platformer preset record. -/
theorem getGamePreset_inherited_counterexample :
    "constructor" ∉ genreNames ∧
      getGamePresetJs "constructor" = JsValue.inherited "constructor" ∧
      getGamePresetJs "constructor" ≠
        JsValue.val (getGamePreset "platformer") := by
  refine ⟨by decide, rfl, by decide⟩

/-- C2 amended: for every string that is neither one of the six declared
genre names nor one of the twelve property names inherited from
`Object.prototype`, the read is `undefined`, the `||` fallback is taken,
and `getGamePreset` returns exactly the preset of the default genre
`"platformer"`. -/
theorem getGamePreset_unknown_default (s : String) (h1 : s ∉ genreNames)
    (h2 : s ∉ objectProtoProps) :
    getGamePresetJs s = JsValue.val (getGamePreset "platformer") := by
  have hl : GamePresets.lookup s = none := GamePresets_lookup_none s h1
  unfold getGamePresetJs jsGet
  rw [hl]
  simp only [if_neg h2]
  rfl

/-- Witness for C2 at the concrete unknown genre name `"arcade"`. -/
theorem getGamePreset_unknown_default_witness :
    ("arcade" ∉ genreNames ∧ "arcade" ∉ objectProtoProps) ∧
      getGamePresetJs "arcade" = JsValue.val (getGamePreset "platformer") :=
  ⟨⟨by decide, by decide⟩,
   getGamePreset_unknown_default "arcade" (by decide) (by decide)⟩

/-- C4: every declared genre name has an entry in the `GamePresets` table —
a `GamePreset` value, whose four attribute groups (physics with its gravity
vector, player, camera, polish) are total, non-optional fields — and
`getGamePreset` returns exactly that entry. -/
theorem preset_lookup_fully_populated (g : String) (h : g ∈ genreNames) :
    ∃ p : GamePreset, GamePresets.lookup g = some p ∧ getGamePreset g = p := by
  fin_cases h <;> exact ⟨_, rfl, rfl⟩

/-- Witness for C4 at the concrete genre name `"zen"`. -/
theorem preset_lookup_fully_populated_witness :
    "zen" ∈ genreNames ∧
      ∃ p : GamePreset, GamePresets.lookup "zen" = some p ∧ getGamePreset "zen" = p :=
  ⟨by decide, preset_lookup_fully_populated "zen" (by decide)⟩

/-- C6: the puzzle preset's player speed is 0. -/
theorem puzzle_player_speed_zero : (getGamePreset "puzzle").player.speed = 0 := by
  decide

/-- C7: `detectGameType` and `getGamePreset` are deterministic and
side-effect free.  Run over the module environment, each invocation leaves
the environment (hence the static `GamePresets` table and, vacuously, the
call-local keyword table) unchanged; a repeated invocation returns the same
result; and on the initial static table `getGamePresetM` agrees with the
pure `getGamePreset`. -/
theorem config_functions_pure (st : PresetEnv) (s g : String) :
    ((detectGameTypeM s).run st).2 = st ∧
    ((getGamePresetM g).run st).2 = st ∧
    ((detectGameTypeM s).run st).1 =
      ((detectGameTypeM s).run ((detectGameTypeM s).run st).2).1 ∧
    ((getGamePresetM g).run st).1 =
      ((getGamePresetM g).run ((getGamePresetM g).run st).2).1 ∧
    ((getGamePresetM g).run GamePresets).1 = some (getGamePreset g) := by
  refine ⟨rfl, rfl, rfl, rfl, ?_⟩
  show (GamePresets.lookup g).orElse (fun _ => GamePresets.lookup "platformer") =
    some (getGamePreset g)
  cases hl : GamePresets.lookup g with
  | some p => simp [Option.orElse, getGamePreset, hl]
  | none => simp [Option.orElse, getGamePreset, hl]; rfl


/-- On finite values `jsLe` is the rational order. -/
theorem jsLe_num (a b : ℚ) :
    jsLe (JsNum.num a) (JsNum.num b) = true ↔ a ≤ b := by
  simp [jsLe]

/-- Each call preserves "health is a finite value ≤ maxHealth" and leaves
`maxHealth` unchanged, provided a damage amount is a nonnegative finite
number and a heal amount a finite number. -/
theorem step_preserves_health_bound (c : BaseCharacter) (e : CharEvent)
    (hinv : ∃ h : ℚ, c.health = JsNum.num h ∧ h ≤ c.maxHealth)
    (hd : ∀ a : JsNum, e = CharEvent.takeDamage a →
        ∃ q : ℚ, a = JsNum.num q ∧ 0 ≤ q)
    (hh : ∀ a : JsNum, e = CharEvent.heal a → ∃ q : ℚ, a = JsNum.num q) :
    (∃ h : ℚ, (step c e).health = JsNum.num h ∧
        h ≤ (step c e).maxHealth) ∧
      (step c e).maxHealth = c.maxHealth := by
  obtain ⟨h, hch, hle⟩ := hinv
  cases e with
  | takeDamage a =>
    obtain ⟨q, rfl, hq⟩ := hd a rfl
    simp only [step, takeDamage]
    by_cases hi : c.invulnerable
    · simp only [hi, if_true]
      exact ⟨⟨h, hch, hle⟩, trivial⟩
    · rw [if_neg hi]
      rw [hch]
      have hs : (JsNum.num h).sub (JsNum.num q) = JsNum.num (h - q) := rfl
      rw [hs]
      simp only [jsLe, decide_eq_true_eq]
      by_cases hz : h - q ≤ 0
      · rw [if_pos hz]
        exact ⟨⟨h - q, rfl, by show h - q ≤ c.maxHealth; linarith⟩, rfl⟩
      · rw [if_neg hz]
        exact ⟨⟨h - q, rfl, by show h - q ≤ c.maxHealth; linarith⟩, rfl⟩
  | heal a =>
    obtain ⟨q, rfl⟩ := hh a rfl
    simp only [step, heal]
    refine ⟨⟨min (h + q) c.maxHealth, ?_, min_le_right _ _⟩, trivial⟩
    rw [hch]
    rfl
  | powerUp =>
    exact ⟨⟨h, hch, hle⟩, rfl⟩
  | invulnEnd =>
    exact ⟨⟨h, hch, hle⟩, rfl⟩

/-- `runEvents` keeps health a finite value below the fixed maximum when
every damage amount in the sequence is a nonnegative finite number and
every heal amount a finite number. -/
theorem runEvents_health_bound (es : List CharEvent) :
    ∀ c : BaseCharacter,
      (∃ h : ℚ, c.health = JsNum.num h ∧ h ≤ c.maxHealth) →
      (∀ a : JsNum, CharEvent.takeDamage a ∈ es →
          ∃ q : ℚ, a = JsNum.num q ∧ 0 ≤ q) →
      (∀ a : JsNum, CharEvent.heal a ∈ es → ∃ q : ℚ, a = JsNum.num q) →
      (∃ h : ℚ, (runEvents c es).health = JsNum.num h ∧
          h ≤ (runEvents c es).maxHealth) ∧
        (runEvents c es).maxHealth = c.maxHealth := by
  induction es with
  | nil => intro c h _ _; exact ⟨h, rfl⟩
  | cons e t ih =>
    intro c hc hd hh
    have h1 := step_preserves_health_bound c e hc
      (fun a hea => hd a (by rw [← hea]; exact List.mem_cons_self e t))
      (fun a hea => hh a (by rw [← hea]; exact List.mem_cons_self e t))
    have h2 := ih (step c e) h1.1
      (fun a hm => hd a (List.mem_cons_of_mem e hm))
      (fun a hm => hh a (List.mem_cons_of_mem e hm))
    have hrun : runEvents c (e :: t) = runEvents (step c e) t := rfl
    rw [hrun]
    exact ⟨h2.1, h2.2.trans h1.2⟩

/-- C8 counterexample: `takeDamage` and `heal` accept any `number`, so a
damage amount of −1 on a fresh default character raises health to
4 > maxHealth 3, and a heal amount of `NaN` sets health to `NaN`, for
which `health <= maxHealth` is false — the invariant as claimed fails. -/
theorem health_invariant_counterexample :
    ¬ (jsLe (runEvents (mkBaseCharacter sampleConfig)
            [CharEvent.takeDamage (JsNum.num (-1))]).health
        (JsNum.num (runEvents (mkBaseCharacter sampleConfig)
            [CharEvent.takeDamage (JsNum.num (-1))]).maxHealth) = true) ∧
    ¬ (jsLe (runEvents (mkBaseCharacter sampleConfig)
            [CharEvent.heal JsNum.nan]).health
        (JsNum.num (runEvents (mkBaseCharacter sampleConfig)
            [CharEvent.heal JsNum.nan]).maxHealth) = true) := by
  constructor
  · have hx : runEvents (mkBaseCharacter sampleConfig)
        [CharEvent.takeDamage (JsNum.num (-1))] =
        takeDamage (mkBaseCharacter sampleConfig) (JsNum.num (-1)) := rfl
    rw [hx]
    norm_num [takeDamage, mkBaseCharacter, sampleConfig, jsOrNum, die,
      JsNum.sub, jsLe]
  · have hx : runEvents (mkBaseCharacter sampleConfig)
        [CharEvent.heal JsNum.nan] =
        heal (mkBaseCharacter sampleConfig) JsNum.nan := rfl
    rw [hx]
    simp [heal, mkBaseCharacter, sampleConfig, jsOrNum, JsNum.add, jsMin, jsLe]

/-- C8 amended: for every constructed character and every sequence of
`takeDamage`/`heal`/`powerUp` calls (with the scheduled
invulnerability-frame expiries) in which each `takeDamage` amount is a
nonnegative finite number and each `heal` amount a finite number,
`health ≤ maxHealth` holds throughout and `maxHealth` keeps its
construction-time value; `heal` caps at the maximum by `Math.min`.
(A negative damage amount exceeds the bound, and `NaN` — supplied
directly or produced from opposite infinite amounts — escapes the
comparison altogether.) -/
theorem health_invariant_amended (cfg : CharacterConfig) (es : List CharEvent)
    (hd : ∀ a : JsNum, CharEvent.takeDamage a ∈ es →
        ∃ q : ℚ, a = JsNum.num q ∧ 0 ≤ q)
    (hh : ∀ a : JsNum, CharEvent.heal a ∈ es → ∃ q : ℚ, a = JsNum.num q) :
    jsLe (runEvents (mkBaseCharacter cfg) es).health
        (JsNum.num (runEvents (mkBaseCharacter cfg) es).maxHealth) = true ∧
      (runEvents (mkBaseCharacter cfg) es).maxHealth =
        (mkBaseCharacter cfg).maxHealth := by
  obtain ⟨⟨h, hch, hle⟩, hmax⟩ := runEvents_health_bound es
    (mkBaseCharacter cfg) ⟨jsOrNum cfg.health 3, rfl, le_refl _⟩ hd hh
  refine ⟨?_, hmax⟩
  rw [hch]
  exact (jsLe_num _ _).mpr hle

/-- Witness for the amended C8 on a concrete sequence. -/
theorem health_invariant_amended_witness :
    ((∀ a : JsNum, CharEvent.takeDamage a ∈
        [CharEvent.heal (JsNum.num 5), CharEvent.takeDamage (JsNum.num 1)] →
          ∃ q : ℚ, a = JsNum.num q ∧ 0 ≤ q) ∧
      (∀ a : JsNum, CharEvent.heal a ∈
        [CharEvent.heal (JsNum.num 5), CharEvent.takeDamage (JsNum.num 1)] →
          ∃ q : ℚ, a = JsNum.num q)) ∧
    (jsLe (runEvents (mkBaseCharacter sampleConfig)
          [CharEvent.heal (JsNum.num 5),
           CharEvent.takeDamage (JsNum.num 1)]).health
        (JsNum.num (runEvents (mkBaseCharacter sampleConfig)
          [CharEvent.heal (JsNum.num 5),
           CharEvent.takeDamage (JsNum.num 1)]).maxHealth) = true ∧
      (runEvents (mkBaseCharacter sampleConfig)
          [CharEvent.heal (JsNum.num 5),
           CharEvent.takeDamage (JsNum.num 1)]).maxHealth =
        (mkBaseCharacter sampleConfig).maxHealth) := by
  have hd : ∀ a : JsNum, CharEvent.takeDamage a ∈
      [CharEvent.heal (JsNum.num 5), CharEvent.takeDamage (JsNum.num 1)] →
        ∃ q : ℚ, a = JsNum.num q ∧ 0 ≤ q := by
    intro a ha
    simp only [List.mem_cons, List.not_mem_nil, or_false] at ha
    rcases ha with hcase | hcase
    · exact absurd hcase (by simp)
    · exact ⟨1, by injection hcase, by norm_num⟩
  have hh : ∀ a : JsNum, CharEvent.heal a ∈
      [CharEvent.heal (JsNum.num 5), CharEvent.takeDamage (JsNum.num 1)] →
        ∃ q : ℚ, a = JsNum.num q := by
    intro a ha
    simp only [List.mem_cons, List.not_mem_nil, or_false] at ha
    rcases ha with hcase | hcase
    · exact ⟨5, by injection hcase⟩
    · exact absurd hcase (by simp)
  exact ⟨⟨hd, hh⟩, health_invariant_amended sampleConfig
    [CharEvent.heal (JsNum.num 5), CharEvent.takeDamage (JsNum.num 1)] hd hh⟩

/-- C9: on a character whose `invulnerable` flag is set, `takeDamage`
returns immediately — every observable field is unchanged and no death is
triggered, for every amount (negative, `NaN` and infinite included). -/
theorem takeDamage_invulnerable_noop (c : BaseCharacter) (a : JsNum)
    (h : c.invulnerable = true) :
    takeDamage c a = c := by
  unfold takeDamage
  simp [h]

/-- Witness for C9 on a concrete invulnerable character. -/
theorem takeDamage_invulnerable_noop_witness :
    invulnerableSample.invulnerable = true ∧
      takeDamage invulnerableSample 2 = invulnerableSample :=
  ⟨rfl, takeDamage_invulnerable_noop invulnerableSample 2 rfl⟩

/-- C10: the constructor's `||` defaulting treats the value 0 exactly like
an omitted property: speed/jumpHeight/health absent or 0 give the defaults
200/400/3 (so a preset speed of 0 cannot be installed this way). -/
theorem constructor_zero_as_omitted (cfg : CharacterConfig) :
    ((cfg.speed = none ∨ cfg.speed = some 0) →
      (mkBaseCharacter cfg).speed = 200) ∧
    ((cfg.jumpHeight = none ∨ cfg.jumpHeight = some 0) →
      (mkBaseCharacter cfg).jumpHeight = 400) ∧
    ((cfg.health = none ∨ cfg.health = some 0) →
      (mkBaseCharacter cfg).health = 3) := by
  refine ⟨?_, ?_, ?_⟩ <;> rintro (h | h) <;>
    simp [mkBaseCharacter, jsOrNum, h] <;> rfl

/-- A config passing explicit zeros for speed and jumpHeight and omitting
health. -/
def zeroConfig : CharacterConfig where
  x := 0
  y := 0
  texture := none
  speed := some 0
  jumpHeight := some 0
  health := none
  scale := none

/-- Witness for C10 on `zeroConfig`. -/
theorem constructor_zero_as_omitted_witness :
    (mkBaseCharacter zeroConfig).speed = 200 ∧
      (mkBaseCharacter zeroConfig).jumpHeight = 400 ∧
      (mkBaseCharacter zeroConfig).health = 3 :=
  ⟨(constructor_zero_as_omitted zeroConfig).1 (Or.inr rfl),
   (constructor_zero_as_omitted zeroConfig).2.1 (Or.inr rfl),
   (constructor_zero_as_omitted zeroConfig).2.2 (Or.inl rfl)⟩
